import Mathlib

/-!
Verification of the containerd nodeup builder (nodeup/pkg/model/containerd.go)
against its specification.  The data model and operations below are a shallow
embedding of the Go source: pure functions become Lean functions, the mutable
`fi.ModelBuilderContext` becomes explicit state passing, and fallible calls
return `Except`.  Definitions whose Go source lives in files of the repository
that are not part of the provided sources (the `packageVersion` struct with its
`matches` method from docker.go, the flag builder, the systemd manifest
renderer, and the mutating-target apply logic for file tasks) are modelled from
the specification text and carry a doc comment saying so.
-/

namespace Kops

/-- OS distributions (values of the Go string type distros.Distribution that
appear in the builder). -/
inductive Distribution where
  | debian9
  | debian10
  | xenial
  | bionic
  | focal
  | rhel7
  | centos7
  | rhel8
  | centos8
  | amazonLinux2
  | flatcar
  | containerOS
deriving DecidableEq, Repr

/-- CPU architectures (values of the Go string type Architecture used by the
builder). -/
inductive Architecture where
  | amd64
  | arm64
deriving DecidableEq, Repr

/-- One extra dependent package of a packageVersion record (Go packageInfo). -/
structure packageInfo where
  Version : String
  Source : String
  Hash : String
deriving DecidableEq, Repr

/-- One catalog record for an installable build of node software
(Go packageVersion struct; its declaration lives in docker.go, transcribed
here from the fields the containerd builder uses).  ExtraPackages is a Go map
from package name to packageInfo; it is modelled as an association list. -/
structure packageVersion where
  PackageVersion : String
  Name : String := ""
  Distros : List Distribution := []
  Architectures : List Architecture := []
  Version : String := ""
  Source : String := ""
  Hash : String := ""
  PlainBinary : Bool := false
  ExtraPackages : List (String × packageInfo) := []
  MarkImmutable : List String := []
  Dependencies : List String := []
deriving DecidableEq, Repr

/-- Modelled from the spec: the matching query of the artifact catalog (the
method packageVersion.matches lives in docker.go, which is not among the
provided sources).  A record is a candidate iff the requested version equals
the records PackageVersion, the distribution constraint is empty or contains
the distribution, and the architecture constraint is empty or contains the
architecture. -/
def packageVersion.matches (d : packageVersion) (arch : Architecture)
    (version : String) (distro : Distribution) : Bool :=
  d.PackageVersion == version
    && (d.Distros.isEmpty || d.Distros.contains distro)
    && (d.Architectures.isEmpty || d.Architectures.contains arch)

/-- The static containerd artifact catalog (containerdVersions in
containerd.go), transcribed record by record. -/
def containerdVersions : List packageVersion := [
  -- 1.2.4 - Debian Stretch
  { PackageVersion := "1.2.4",
    Name := "containerd.io",
    Distros := [Distribution.debian9],
    Architectures := [Architecture.amd64],
    Version := "1.2.4-1",
    Source := "https://download.docker.com/linux/debian/dists/stretch/pool/stable/amd64/containerd.io_1.2.4-1_amd64.deb",
    Hash := "48c6ab0c908316af9a183de5aad64703bc516bdf" },
  -- 1.2.10 - Debian Stretch
  { PackageVersion := "1.2.10",
    Name := "containerd.io",
    Distros := [Distribution.debian9],
    Architectures := [Architecture.amd64],
    Version := "1.2.10-3",
    Source := "https://download.docker.com/linux/debian/dists/stretch/pool/stable/amd64/containerd.io_1.2.10-3_amd64.deb",
    Hash := "186f2f2c570f37b363102e6b879073db6dec671d" },
  -- 1.2.10 - Debian Buster
  { PackageVersion := "1.2.10",
    Name := "containerd.io",
    Distros := [Distribution.debian10],
    Architectures := [Architecture.amd64],
    Version := "1.2.10-3",
    Source := "https://download.docker.com/linux/debian/dists/buster/pool/stable/amd64/containerd.io_1.2.10-3_amd64.deb",
    Hash := "365e4a7541ce2cf3c3036ea2a9bf6b40a50893a8" },
  -- 1.2.10 - Ubuntu Xenial
  { PackageVersion := "1.2.10",
    Name := "containerd.io",
    Distros := [Distribution.xenial],
    Architectures := [Architecture.amd64],
    Version := "1.2.10-3",
    Source := "https://download.docker.com/linux/ubuntu/dists/xenial/pool/stable/amd64/containerd.io_1.2.10-3_amd64.deb",
    Hash := "b64e7170d9176bc38967b2e12147c69b65bdd0fc" },
  -- 1.2.10 - Ubuntu Bionic
  { PackageVersion := "1.2.10",
    Name := "containerd.io",
    Distros := [Distribution.bionic],
    Architectures := [Architecture.amd64],
    Version := "1.2.10-3",
    Source := "https://download.docker.com/linux/ubuntu/dists/bionic/pool/stable/amd64/containerd.io_1.2.10-3_amd64.deb",
    Hash := "f4c941807310e3fa470dddfb068d599174a3daec" },
  -- 1.2.10 - CentOS7 / Rhel 7
  { PackageVersion := "1.2.10",
    Name := "containerd.io",
    Distros := [Distribution.rhel7, Distribution.centos7],
    Architectures := [Architecture.amd64],
    Version := "1.2.10",
    Source := "https://download.docker.com/linux/centos/7/x86_64/stable/Packages/containerd.io-1.2.10-3.2.el7.x86_64.rpm",
    Hash := "f6447e84479df3a58ce04a3da87ccc384663493b" },
  -- 1.2.10 - CentOS8 / Rhel 8
  { PackageVersion := "1.2.10",
    Name := "containerd.io",
    Distros := [Distribution.rhel8, Distribution.centos8],
    Architectures := [Architecture.amd64],
    Version := "1.2.10",
    Source := "https://download.docker.com/linux/centos/7/x86_64/stable/Packages/containerd.io-1.2.10-3.2.el7.x86_64.rpm",
    Hash := "f6447e84479df3a58ce04a3da87ccc384663493b" },
  -- 1.2.10 - Linux Generic (AmazonLinux2, UbuntuFocal)
  { PackageVersion := "1.2.10",
    PlainBinary := true,
    Distros := [Distribution.amazonLinux2, Distribution.focal],
    Architectures := [Architecture.amd64],
    Source := "https://storage.googleapis.com/cri-containerd-release/cri-containerd-1.2.10.linux-amd64.tar.gz",
    Hash := "c84c29dcd1867a6ee9899d2106ab4f28854945f6" },
  -- 1.2.11 - Linux Generic
  { PackageVersion := "1.2.11",
    PlainBinary := true,
    Architectures := [Architecture.amd64],
    Source := "https://storage.googleapis.com/cri-containerd-release/cri-containerd-1.2.11.linux-amd64.tar.gz",
    Hash := "c98c9fdfd0984557e5b1a1f209213d2d8ad8471c" },
  -- 1.2.12 - Linux Generic
  { PackageVersion := "1.2.12",
    PlainBinary := true,
    Architectures := [Architecture.amd64],
    Source := "https://storage.googleapis.com/cri-containerd-release/cri-containerd-1.2.12.linux-amd64.tar.gz",
    Hash := "9455ca2508ad57438cb02a986ba763033bcb05f7" },
  -- 1.2.13 - Linux Generic
  { PackageVersion := "1.2.13",
    PlainBinary := true,
    Architectures := [Architecture.amd64],
    Source := "https://storage.googleapis.com/cri-containerd-release/cri-containerd-1.2.13.linux-amd64.tar.gz",
    Hash := "70ee2821e26116b0cddc679d14806fd20d25d65c" },
  -- 1.3.2 - Linux Generic
  { PackageVersion := "1.3.2",
    PlainBinary := true,
    Architectures := [Architecture.amd64],
    Source := "https://storage.googleapis.com/cri-containerd-release/cri-containerd-1.3.2.linux-amd64.tar.gz",
    Hash := "f451d46280104588f236bee277bca1da8babc0e8" },
  -- 1.3.3 - Linux Generic
  { PackageVersion := "1.3.3",
    PlainBinary := true,
    Architectures := [Architecture.amd64],
    Source := "https://storage.googleapis.com/cri-containerd-release/cri-containerd-1.3.3.linux-amd64.tar.gz",
    Hash := "921b74e84da366ec3eaa72ff97fa8d6ae56834c6" },
  -- 1.3.4 - Linux Generic
  { PackageVersion := "1.3.4",
    PlainBinary := true,
    Architectures := [Architecture.amd64],
    Source := "https://storage.googleapis.com/cri-containerd-release/cri-containerd-1.3.4.linux-amd64.tar.gz",
    Hash := "ce518d8091ffdd40caa7f386c742d9b1d03e01b5" }
]

/-- File kind of a file task (nodetasks.FileType; only FileType_File is used
by this builder). -/
inductive FileType where
  | file
  | directory
deriving DecidableEq, Repr

/-- A file task (nodetasks.File): absolute path, contents, kind, paths that
must exist first, and argument vectors to run only when the applied content
changed.  The Go field Type is spelled Type' because Type is reserved. -/
structure FileTask where
  Path : String
  Contents : String
  Type' : FileType := FileType.file
  AfterFiles : List String := []
  OnChangeExecute : List (List String) := []
deriving Repr

/-- An archive-extraction task (nodetasks.Archive).  MapFiles is a Go map,
modelled as an association list in source order. -/
structure ArchiveTask where
  Name : String
  Source : String
  Hash : String
  TargetDir : String
  MapFiles : List (String × String) := []
deriving Repr

/-- A package-install task (nodetasks.Package).  Deps holds further package
tasks installed together with this one. -/
structure PackageTask where
  Name : String
  Version : Option String := none
  Source : Option String := none
  Hash : Option String := none
  Deps : List PackageTask := []
  PreventStart : Option Bool := none
deriving Repr

/-- The tasks the containerd builder can emit into the build context. -/
inductive Task where
  | file (f : FileTask)
  | archive (a : ArchiveTask)
  | package (p : PackageTask)
  | chattr (file : String) (mode : String) (deps : List Task)
  | service (name : String) (definition : String)
deriving Repr

/-- Warnings surfaced non-fatally by the builder (klog.Warningf calls),
kept structured rather than as formatted strings. -/
inductive BuildWarning where
  | noContainerdPackage (distro : Distribution) (arch : Architecture) (version : String)
deriving Repr

/-- The shared build context (fi.ModelBuilderContext): the accumulated task
list in emission order, plus the warnings surfaced so far. -/
structure ModelBuilderContext where
  Tasks : List Task := []
  Warnings : List BuildWarning := []
deriving Repr

/-- AddTask appends one task to the context (c.AddTask in Go). -/
def ModelBuilderContext.AddTask (c : ModelBuilderContext) (t : Task) : ModelBuilderContext :=
  { c with Tasks := c.Tasks ++ [t] }

/-- AddWarning records one non-fatal warning (a klog.Warningf call site). -/
def ModelBuilderContext.AddWarning (c : ModelBuilderContext) (w : BuildWarning) : ModelBuilderContext :=
  { c with Warnings := c.Warnings ++ [w] }

/-- The optional containerd section of the cluster spec
(kops.ContainerdConfig, the fields the builder reads). -/
structure ContainerdConfig where
  Version : Option String := none
  ConfigOverride : Option String := none
  SkipInstall : Bool := false
deriving DecidableEq, Repr

/-- The slice of the cluster spec the builder reads.  NetworkingUsesKubenet
abstracts components.UsesKubenet(spec.Networking), an external collaborator
that is out of scope per the spec. -/
structure ClusterSpec where
  Containerd : Option ContainerdConfig := none
  ContainerRuntime : String := ""
  NetworkingUsesKubenet : Bool := false
deriving DecidableEq, Repr

/-- fi.StringValue: dereference an optional string, absent meaning empty. -/
def StringValue : Option String → String
  | none => ""
  | some s => s

/-- The containerd builder with the context fields it reads
(ContainerdBuilder over NodeupModelContext). -/
structure ContainerdBuilder where
  ClusterSpec : ClusterSpec
  Distribution : Distribution
  Architecture : Architecture
deriving Repr

/-- skipInstall: skip installation iff the user set SkipInstall in the
containerd section; an absent section never skips. -/
def ContainerdBuilder.skipInstall (b : ContainerdBuilder) : Bool :=
  match b.ClusterSpec.Containerd with
  | none => false
  | some d => d.SkipInstall

/-- containerdVersion: read the requested version from the cluster spec;
an absent or empty version is a configuration error. -/
def ContainerdBuilder.containerdVersion (b : ContainerdBuilder) : Except String String :=
  let v :=
    match b.ClusterSpec.Containerd with
    | some cfg => StringValue cfg.Version
    | none => ""
  if v = "" then Except.error "error finding containerd version"
  else Except.ok v

/-- Modelled from the spec: the Apache 2.0 license text resource
(resources.ContainerdApache2License, not among the provided sources); only
the file task carrying it is under verification, not the text itself. -/
def ContainerdApache2License : String := "Apache License Version 2.0, January 2004"

/-- The package task built from one ExtraPackages entry (the loop body over
dv.ExtraPackages in Build). -/
def mkExtraPackageTask (e : String × packageInfo) : PackageTask :=
  { Name := e.1,
    Version := some e.2.Version,
    Source := some e.2.Source,
    Hash := some e.2.Hash,
    Deps := [],
    PreventStart := some true }

/-- The extra dependent package tasks of a record, one per ExtraPackages
entry, in catalog order. -/
def packageVersion.extraPackageTasks (dv : packageVersion) : List PackageTask :=
  dv.ExtraPackages.map mkExtraPackageTask

/-- The primary install task of one selected record: an archive task for a
plain-binary record, otherwise a package task whose Deps are the extra
dependent package tasks (the packageTask variable in Build). -/
def packageVersion.primaryTask (dv : packageVersion) : Task :=
  if dv.PlainBinary then
    Task.archive
      { Name := "containerd.io",
        Source := dv.Source,
        Hash := dv.Hash,
        TargetDir := "/",
        MapFiles := [("./usr/local/bin", "/usr"), ("./usr/local/sbin", "/usr")] }
  else
    Task.package
      { Name := dv.Name,
        Version := some dv.Version,
        Source := some dv.Source,
        Hash := some dv.Hash,
        Deps := dv.extraPackageTasks,
        PreventStart := some true }

/-- All tasks one selected record contributes, in emission order: the primary
install task, then one Chattr +i task per MarkImmutable file (each depending
on the primary task), then one bare package task per Dependencies entry. -/
def packageVersion.tasks (dv : packageVersion) : List Task :=
  dv.primaryTask
    :: (dv.MarkImmutable.map (fun f => Task.chattr f "+i" [dv.primaryTask])
        ++ dv.Dependencies.map (fun dep => Task.package { Name := dep, Deps := [] }))

/-- The package-loop of Build over the catalog, threading the context and the
match count (the for-loop with continue at lines 256-324; it never stops at
the first match). -/
def packagesScanLoop (p : packageVersion → Bool) :
    List packageVersion → ModelBuilderContext → Nat → ModelBuilderContext × Nat
  | [], c, k => (c, k)
  | dv :: rest, c, k =>
    if p dv then
      packagesScanLoop p rest (dv.tasks.foldl ModelBuilderContext.AddTask c) (k + 1)
    else
      packagesScanLoop p rest c k

/-- The catalog scan of Build for one (architecture, version, distribution)
input, started on a given context with count 0. -/
def containerdPackagesScan (arch : Architecture) (version : String)
    (distro : Distribution) (c : ModelBuilderContext) : ModelBuilderContext × Nat :=
  packagesScanLoop (fun dv => dv.matches arch version distro) containerdVersions c 0

/-- The selection function: all catalog records whose constraints and version
match, in catalog order (the records the Build loop does not skip). -/
def selectContainerd (arch : Architecture) (version : String)
    (distro : Distribution) : List packageVersion :=
  containerdVersions.filter (fun dv => dv.matches arch version distro)

/-- Modelled from the spec: flagbuilder.BuildFlags renders the flag-tagged
fields of the containerd configuration into an options string for the
sysconfig file.  None of the configuration fields the builder reads here
(Version, ConfigOverride, SkipInstall) carries a flag tag, so for the
configurations modelled the rendered flags string is empty; the spec fixes
only that the sysconfig file holds one CONTAINERD_OPTS= line. -/
def BuildFlags (_cfg : ContainerdConfig) : String := ""

/-- The sysconfig file task of the builder (buildSysconfig): the environment
file consumed by the generated service unit. -/
def ContainerdBuilder.containerdSysconfigFile (b : ContainerdBuilder) : FileTask :=
  let containerd : ContainerdConfig :=
    match b.ClusterSpec.Containerd with
    | some cfg => cfg
    | none => {}
  { Path := "/etc/sysconfig/containerd",
    Contents := "CONTAINERD_OPTS=" ++ BuildFlags containerd }

/-- buildSysconfig: extract the containerd configuration and emit the
sysconfig file task. -/
def ContainerdBuilder.buildSysconfig (b : ContainerdBuilder)
    (c : ModelBuilderContext) : Except String ModelBuilderContext :=
  Except.ok (c.AddTask (Task.file b.containerdSysconfigFile))

/-- The contents of the systemd drop-in written on Flatcar and ContainerOS. -/
def containerdDropInContents : String :=
  String.intercalate "\n"
    ["[Service]",
     "EnvironmentFile=/etc/sysconfig/containerd",
     "EnvironmentFile=/etc/environment",
     "TasksMax=infinity"]

/-- The drop-in configuration file task emitted on Flatcar and ContainerOS
(buildContainerOSConfigurationDropIn), with its conditional ordering hint on
the sysconfig file and its on-change commands. -/
def containerdDropInFile : FileTask :=
  { AfterFiles := ["/etc/sysconfig/containerd"],
    Path := "/etc/systemd/system/containerd.service.d/10-kops.conf",
    Contents := containerdDropInContents,
    OnChangeExecute :=
      [["systemctl", "daemon-reload"],
       ["systemctl", "restart", "containerd.service"],
       ["systemctl", "restart", "kops-configuration.service", "&"]] }

/-- buildContainerOSConfigurationDropIn: emit the drop-in file task, then the
sysconfig file task. -/
def ContainerdBuilder.buildContainerOSConfigurationDropIn (b : ContainerdBuilder)
    (c : ModelBuilderContext) : Except String ModelBuilderContext :=
  b.buildSysconfig (c.AddTask (Task.file containerdDropInFile))

/-- The (section, key, value) entries of the containerd systemd unit, in the
order of the manifest.Set calls of buildSystemdService. -/
def containerdServiceManifestEntries : List (String × String × String) :=
  [("Unit", "Description", "containerd container runtime"),
   ("Unit", "Documentation", "https://containerd.io"),
   ("Unit", "After", "network.target local-fs.target"),
   ("Service", "EnvironmentFile", "/etc/sysconfig/containerd"),
   ("Service", "EnvironmentFile", "/etc/environment"),
   ("Service", "ExecStartPre", "-/sbin/modprobe overlay"),
   ("Service", "ExecStart", "/usr/bin/containerd -c /etc/containerd/config-kops.toml \"$CONTAINERD_OPTS\""),
   ("Service", "Restart", "always"),
   ("Service", "RestartSec", "5"),
   ("Service", "Delegate", "yes"),
   ("Service", "KillMode", "process"),
   ("Service", "OOMScoreAdjust", "-999"),
   ("Service", "LimitNOFILE", "1048576"),
   ("Service", "LimitNPROC", "infinity"),
   ("Service", "LimitCORE", "infinity"),
   ("Service", "TasksMax", "infinity"),
   ("Install", "WantedBy", "multi-user.target")]

/-- The section names of a manifest in order of first appearance. -/
def manifestSections (entries : List (String × String × String)) : List String :=
  entries.foldl (fun acc e => if acc.contains e.1 then acc else acc ++ [e.1]) []

/-- Modelled from the spec: the systemd manifest renderer (systemd.Manifest
of the repository, not among the provided sources) serializes a sectioned
key/value document with ordered repeatable keys per section. -/
def systemdManifestRender (entries : List (String × String × String)) : String :=
  String.intercalate "\n"
    ((manifestSections entries).map (fun sec =>
      "[" ++ sec ++ "]\n"
        ++ String.intercalate "\n"
            ((entries.filter (fun e => e.1 == sec)).map
              (fun e => e.2.1 ++ "=" ++ e.2.2))))
    ++ "\n"

/-- buildSystemdService: the containerd.service task carrying the rendered
unit manifest. -/
def ContainerdBuilder.buildSystemdService (_b : ContainerdBuilder) : Task :=
  Task.service "containerd.service" (systemdManifestRender containerdServiceManifestEntries)

/-- The kubenet CNI config template written for containerd with Kubenet
(buildKubenetCNIConfigTemplate). -/
def kubenetCNITemplate : String :=
  String.intercalate "\n"
    ["\x7b",
     "    \"cniVersion\": \"0.3.1\",",
     "    \"name\": \"kubenet\",",
     "    \"plugins\": [",
     "        \x7b",
     "            \"type\": \"bridge\",",
     "            \"bridge\": \"cbr0\",",
     "            \"mtu\": 1460,",
     "            \"addIf\": \"eth0\",",
     "            \"isGateway\": true,",
     "            \"ipMasq\": true,",
     "            \"promiscMode\": true,",
     "            \"ipam\": \x7b",
     "                \"type\": \"host-local\",",
     "                \"subnet\": \"\x7b\x7b.PodCIDR\x7d\x7d\",",
     "                \"routes\": [\x7b \"dst\": \"0.0.0.0/0\" \x7d]",
     "            \x7d",
     "        \x7d",
     "    ]",
     "\x7d"]

/-- Build: the full containerd builder (Build at lines 203-341), threading
the build context explicitly.  On error the caller aborts the run, so the
error branch carries no context. -/
def ContainerdBuilder.build (b : ContainerdBuilder)
    (c : ModelBuilderContext) : Except String ModelBuilderContext :=
  if b.skipInstall then Except.ok c
  else
    match b.Distribution with
    | Distribution.flatcar => b.buildContainerOSConfigurationDropIn c
    | Distribution.containerOS => b.buildContainerOSConfigurationDropIn c
    | _ =>
      -- Add Apache2 license
      let c := c.AddTask (Task.file
        { Path := "/usr/share/doc/containerd/apache.txt",
          Contents := ContainerdApache2License })
      -- Add config file
      let containerdConfigOverride :=
        match b.ClusterSpec.Containerd with
        | some cfg => StringValue cfg.ConfigOverride
        | none => ""
      let c := c.AddTask (Task.file
        { Path := "/etc/containerd/config-kops.toml",
          Contents := containerdConfigOverride })
      match b.containerdVersion with
      | Except.error e => Except.error e
      | Except.ok version =>
        -- Add packages
        let scan := containerdPackagesScan b.Architecture version b.Distribution c
        let c := scan.1
        let c :=
          if scan.2 = 0 then
            c.AddWarning (BuildWarning.noContainerdPackage b.Distribution b.Architecture version)
          else c
        let c := c.AddTask b.buildSystemdService
        match b.buildSysconfig c with
        | Except.error e => Except.error e
        | Except.ok c =>
          let c :=
            if b.ClusterSpec.ContainerRuntime = "containerd"
                ∧ b.ClusterSpec.NetworkingUsesKubenet = true then
              c.AddTask (Task.file
                { Path := "/etc/containerd/cni-config.template",
                  Contents := kubenetCNITemplate })
            else c
          Except.ok c

/-- Whether the version requested by the cluster spec is absent or empty. -/
def ClusterSpec.noContainerdVersion (s : ClusterSpec) : Bool :=
  match s.Containerd with
  | none => true
  | some cfg => StringValue cfg.Version == ""

/-- Modelled from the spec: the mutating target applies a file task by
computing the observed state and diffing it against the desired contents;
when equal the task is skipped and no on-change command runs, when different
the minimal corrective action rewrites the file and the OnChangeExecute
commands run in declared order (the file task apply logic lives outside the
provided sources).  The result is the new file content and the command
vectors that ran. -/
def applyFileTask (t : FileTask) (observed : Option String) :
    String × List (List String) :=
  if observed = some t.Contents then (t.Contents, [])
  else (t.Contents, t.OnChangeExecute)

/-- The license file task added at the top of the default install path. -/
def licenseFileTask : Task :=
  Task.file
    { Path := "/usr/share/doc/containerd/apache.txt",
      Contents := ContainerdApache2License }

/-- The config file task carrying the optional ConfigOverride of the spec. -/
def ContainerdBuilder.configOverrideFileTask (b : ContainerdBuilder) : Task :=
  Task.file
    { Path := "/etc/containerd/config-kops.toml",
      Contents :=
        match b.ClusterSpec.Containerd with
        | some cfg => StringValue cfg.ConfigOverride
        | none => "" }

/-- The kubenet CNI template tasks the builder appends at the end: one file
task when the container runtime is containerd and the networking mode uses
Kubenet, none otherwise. -/
def ContainerdBuilder.kubenetTasks (b : ContainerdBuilder) : List Task :=
  if b.ClusterSpec.ContainerRuntime = "containerd"
      ∧ b.ClusterSpec.NetworkingUsesKubenet = true then
    [Task.file
      { Path := "/etc/containerd/cni-config.template",
        Contents := kubenetCNITemplate }]
  else []

/-- Folding AddTask over a task list appends the list to the context. -/
lemma foldl_AddTask (c : ModelBuilderContext) (ts : List Task) :
    ts.foldl ModelBuilderContext.AddTask c = { c with Tasks := c.Tasks ++ ts } := by
  induction ts generalizing c with
  | nil => simp
  | cons t ts ih => simp [ModelBuilderContext.AddTask, ih]

/-- All tasks contributed by a list of selected records, in order. -/
def tasksOfRecords : List packageVersion → List Task
  | [] => []
  | dv :: rest => dv.tasks ++ tasksOfRecords rest

/-- Every task of a listed record appears among the tasks of the list. -/
lemma mem_tasksOfRecords {t : Task} {dv : packageVersion} {l : List packageVersion}
    (hdv : dv ∈ l) (ht : t ∈ dv.tasks) : t ∈ tasksOfRecords l := by
  induction l with
  | nil => cases hdv
  | cons hd tl ih =>
    rcases List.mem_cons.mp hdv with h | h
    · subst h
      simp only [tasksOfRecords]
      exact List.mem_append_left _ ht
    · simp only [tasksOfRecords]
      exact List.mem_append_right _ (ih h)

/-- The package loop of Build visits every record: it appends the tasks of
every matching record in catalog order and counts the matches; it never stops
at the first match. -/
lemma packagesScanLoop_eq (p : packageVersion → Bool) (l : List packageVersion)
    (c : ModelBuilderContext) (k : Nat) :
    packagesScanLoop p l c k
      = ({ c with Tasks := c.Tasks ++ tasksOfRecords (l.filter p) },
         k + (l.filter p).length) := by
  induction l generalizing c k with
  | nil => simp [packagesScanLoop, tasksOfRecords]
  | cons dv rest ih =>
    by_cases h : p dv
    · simp only [packagesScanLoop, h, if_pos, List.filter_cons_of_pos, foldl_AddTask, ih,
        tasksOfRecords, List.length_cons]
      refine Prod.ext ?_ ?_
      · simp [List.append_assoc]
      · simp; omega
    · simp only [packagesScanLoop, h, if_neg, Bool.false_eq_true, not_false_iff,
        List.filter_cons_of_neg, ih]

/-- The catalog scan of Build equals appending the tasks of the selected
records and returning the selection count. -/
lemma containerdPackagesScan_eq (arch : Architecture) (version : String)
    (distro : Distribution) (c : ModelBuilderContext) :
    containerdPackagesScan arch version distro c
      = ({ c with Tasks := c.Tasks ++ tasksOfRecords (selectContainerd arch version distro) },
         (selectContainerd arch version distro).length) := by
  simpa [containerdPackagesScan, selectContainerd] using
    packagesScanLoop_eq (fun dv => dv.matches arch version distro) containerdVersions c 0

/-- A cluster spec without a containerd version makes containerdVersion
return the configuration error. -/
lemma containerdVersion_error_of_noVersion (b : ContainerdBuilder)
    (hv : b.ClusterSpec.noContainerdVersion = true) :
    b.containerdVersion = Except.error "error finding containerd version" := by
  unfold ContainerdBuilder.containerdVersion
  unfold ClusterSpec.noContainerdVersion at hv
  cases h : b.ClusterSpec.Containerd with
  | none => simp
  | some cfg =>
    rw [h] at hv
    simp only [beq_iff_eq] at hv
    simp [hv]

/-- On Flatcar and ContainerOS (install not skipped) Build emits exactly the
drop-in file task followed by the sysconfig file task and succeeds. -/
lemma build_dropin_path (b : ContainerdBuilder) (c : ModelBuilderContext)
    (hskip : b.skipInstall = false)
    (hd : b.Distribution = Distribution.flatcar ∨ b.Distribution = Distribution.containerOS) :
    b.build c = Except.ok
      { c with Tasks := c.Tasks
          ++ [Task.file containerdDropInFile, Task.file b.containerdSysconfigFile] } := by
  obtain ⟨spec, dist, arch⟩ := b
  rcases hd with hd | hd <;>
  · simp only at hd
    subst hd
    simp [ContainerdBuilder.build, hskip, ContainerdBuilder.buildContainerOSConfigurationDropIn,
      ContainerdBuilder.buildSysconfig, ModelBuilderContext.AddTask]

/-- On the default install path (install not skipped, distribution neither
Flatcar nor ContainerOS, version resolved) Build succeeds and emits, in
order: the license file task, the config override file task, the tasks of
every selected catalog record, the systemd service task, the sysconfig file
task and the optional kubenet template task; it warns exactly when the
selection is empty. -/
lemma build_default_path (b : ContainerdBuilder) (c : ModelBuilderContext) (version : String)
    (hskip : b.skipInstall = false)
    (h1 : b.Distribution ≠ Distribution.flatcar)
    (h2 : b.Distribution ≠ Distribution.containerOS)
    (hv : b.containerdVersion = Except.ok version) :
    b.build c = Except.ok
      { Tasks := c.Tasks ++ licenseFileTask :: b.configOverrideFileTask ::
          (tasksOfRecords (selectContainerd b.Architecture version b.Distribution)
            ++ b.buildSystemdService :: Task.file b.containerdSysconfigFile :: b.kubenetTasks),
        Warnings := c.Warnings ++
          (if (selectContainerd b.Architecture version b.Distribution).length = 0 then
            [BuildWarning.noContainerdPackage b.Distribution b.Architecture version]
          else []) } := by
  obtain ⟨spec, dist, arch⟩ := b
  cases dist <;>
    first
    | exact absurd rfl h1
    | exact absurd rfl h2
    | (simp only [ContainerdBuilder.build, hskip, Bool.false_eq_true, if_false, hv,
        containerdPackagesScan_eq, ModelBuilderContext.AddTask, ModelBuilderContext.AddWarning,
        ContainerdBuilder.buildSysconfig, ContainerdBuilder.kubenetTasks,
        licenseFileTask, ContainerdBuilder.configOverrideFileTask]
       split_ifs <;> simp [List.append_assoc])

/-- With install not skipped and a distribution outside the drop-in pair, a
missing containerd version makes Build fail with the configuration error. -/
lemma build_missing_version_error (b : ContainerdBuilder) (c : ModelBuilderContext)
    (hskip : b.skipInstall = false)
    (h1 : b.Distribution ≠ Distribution.flatcar)
    (h2 : b.Distribution ≠ Distribution.containerOS)
    (hv : b.ClusterSpec.noContainerdVersion = true) :
    b.build c = Except.error "error finding containerd version" := by
  have herr := containerdVersion_error_of_noVersion b hv
  obtain ⟨spec, dist, arch⟩ := b
  cases dist <;>
    first
    | exact absurd rfl h1
    | exact absurd rfl h2
    | simp [ContainerdBuilder.build, hskip, herr]

/-- Whether a task is a plain file task (not a package, archive, chattr or
service task). -/
def Task.isFile : Task → Bool
  | Task.file _ => true
  | _ => false

/-- How many package-install tasks one emitted task carries: a package task
counts itself plus its dependent package tasks. -/
def Task.packageInstallCount : Task → Nat
  | Task.package p => 1 + p.Deps.length
  | _ => 0

/-- Claim C1: artifact selection is inclusive, not first-match: every catalog
record whose version and constraints match is selected, each such record
contributes its install tasks to the package scan of Build, the selection is
exactly the matching records in catalog order, and whenever any record
matches the selection count is at least 1. -/
theorem containerd_selection_inclusive
    (arch : Architecture) (version : String) (distro : Distribution)
    (dv : packageVersion)
    (hmem : dv ∈ containerdVersions)
    (hmatch : dv.matches arch version distro = true) :
    dv ∈ selectContainerd arch version distro
    ∧ 1 ≤ (selectContainerd arch version distro).length
    ∧ (∀ t ∈ dv.tasks, ∀ c : ModelBuilderContext,
        t ∈ (containerdPackagesScan arch version distro c).1.Tasks)
    ∧ (∀ dv2 : packageVersion,
        dv2 ∈ selectContainerd arch version distro
          ↔ dv2 ∈ containerdVersions ∧ dv2.matches arch version distro = true) := by
  have hsel : dv ∈ selectContainerd arch version distro :=
    List.mem_filter.mpr ⟨hmem, hmatch⟩
  refine ⟨hsel, ?_, ?_, ?_⟩
  · have hpos := List.length_pos.mpr (List.ne_nil_of_mem hsel)
    omega
  · intro t ht c
    rw [containerdPackagesScan_eq]
    exact List.mem_append_right _ (mem_tasksOfRecords hsel ht)
  · intro dv2
    exact List.mem_filter

/-- Claim C1 witness: the CentOS 7 record of version 1.2.10 matches the input
(amd64, 1.2.10, centos7), so the selection there is nonempty. -/
theorem containerd_selection_inclusive_witness :
    1 ≤ (selectContainerd Architecture.amd64 "1.2.10" Distribution.centos7).length :=
  (containerd_selection_inclusive Architecture.amd64 "1.2.10" Distribution.centos7
    (containerdVersions.get ⟨5, by decide⟩)
    (List.get_mem containerdVersions 5 (by decide))
    (by decide)).2.1

/-- Claim C2: selection is deterministic: it is a pure function of the static
catalog and the inputs, so repeated invocations return the same record list,
and that list keeps the relative catalog order (it is a sublist of the
catalog). -/
theorem containerd_selection_deterministic
    (arch : Architecture) (version : String) (distro : Distribution) :
    selectContainerd arch version distro = selectContainerd arch version distro
    ∧ List.Sublist (selectContainerd arch version distro) containerdVersions :=
  ⟨rfl, List.filter_sublist _⟩

/-- Claim C3: on Flatcar or ContainerOS with install not skipped, Build
returns success emitting exactly two tasks: the systemd drop-in file task at
/etc/systemd/system/containerd.service.d/10-kops.conf followed by the
sysconfig file task at /etc/sysconfig/containerd, both plain file tasks and
nothing else (no package, archive, license, config or service task). -/
theorem flatcar_containeros_dropin_only
    (b : ContainerdBuilder) (c : ModelBuilderContext)
    (hskip : b.skipInstall = false)
    (hd : b.Distribution = Distribution.flatcar ∨ b.Distribution = Distribution.containerOS) :
    b.build c = Except.ok
      { c with Tasks := c.Tasks
          ++ [Task.file containerdDropInFile, Task.file b.containerdSysconfigFile] }
    ∧ containerdDropInFile.Path = "/etc/systemd/system/containerd.service.d/10-kops.conf"
    ∧ b.containerdSysconfigFile.Path = "/etc/sysconfig/containerd"
    ∧ Task.isFile (Task.file containerdDropInFile) = true
    ∧ Task.isFile (Task.file b.containerdSysconfigFile) = true :=
  ⟨build_dropin_path b c hskip hd, rfl, rfl, rfl, rfl⟩

/-- Claim C3 witness: a Flatcar builder with an empty cluster spec emits
exactly the drop-in file task and the sysconfig file task. -/
theorem flatcar_containeros_dropin_only_witness :
    ContainerdBuilder.build
        { ClusterSpec := {}, Distribution := Distribution.flatcar,
          Architecture := Architecture.amd64 } {}
      = Except.ok
        { Tasks := [Task.file containerdDropInFile,
            Task.file (ContainerdBuilder.containerdSysconfigFile
              { ClusterSpec := {}, Distribution := Distribution.flatcar,
                Architecture := Architecture.amd64 })],
          Warnings := [] } :=
  (flatcar_containeros_dropin_only
    { ClusterSpec := {}, Distribution := Distribution.flatcar,
      Architecture := Architecture.amd64 } {} rfl (Or.inl rfl)).1

/-- Claim C4 counterexample: a cluster spec whose containerd section sets
SkipInstall and gives no version has no containerd version specified, yet
Build returns success instead of the claimed configuration error. -/
theorem missing_version_not_always_fatal :
    ClusterSpec.noContainerdVersion
        { Containerd := some { SkipInstall := true } } = true
    ∧ ContainerdBuilder.build
        { ClusterSpec := { Containerd := some { SkipInstall := true } },
          Distribution := Distribution.debian9, Architecture := Architecture.amd64 } {}
      = Except.ok {} :=
  ⟨rfl, rfl⟩

/-- Claim C4 (amended): for every cluster spec with no containerd version
specified, provided install is not skipped and the distribution is neither
Flatcar nor ContainerOS, Build fails with the configuration error, aborting
before any task executes. -/
theorem missing_version_fatal
    (b : ContainerdBuilder) (c : ModelBuilderContext)
    (hskip : b.skipInstall = false)
    (h1 : b.Distribution ≠ Distribution.flatcar)
    (h2 : b.Distribution ≠ Distribution.containerOS)
    (hv : b.ClusterSpec.noContainerdVersion = true) :
    b.build c = Except.error "error finding containerd version" :=
  build_missing_version_error b c hskip h1 h2 hv

/-- Claim C4 witness: a Debian 9 builder with an empty cluster spec fails
with the configuration error. -/
theorem missing_version_fatal_witness :
    ContainerdBuilder.build
        { ClusterSpec := {}, Distribution := Distribution.debian9,
          Architecture := Architecture.amd64 } {}
      = Except.error "error finding containerd version" :=
  missing_version_fatal _ {} rfl (by decide) (by decide) rfl

/-- Claim C5: when no catalog record matches the requested version, the
selection is empty and Build surfaces the non-fatal no-package warning rather
than an error: it continues past the empty selection, still emits the systemd
service task and the sysconfig file task, and returns success. -/
theorem no_matching_artifact_nonfatal
    (b : ContainerdBuilder) (c : ModelBuilderContext) (version : String)
    (hskip : b.skipInstall = false)
    (h1 : b.Distribution ≠ Distribution.flatcar)
    (h2 : b.Distribution ≠ Distribution.containerOS)
    (hv : b.containerdVersion = Except.ok version)
    (hempty : selectContainerd b.Architecture version b.Distribution = []) :
    ∃ cOut : ModelBuilderContext,
      b.build c = Except.ok cOut
      ∧ BuildWarning.noContainerdPackage b.Distribution b.Architecture version ∈ cOut.Warnings
      ∧ b.buildSystemdService ∈ cOut.Tasks
      ∧ Task.file b.containerdSysconfigFile ∈ cOut.Tasks := by
  refine ⟨_, build_default_path b c version hskip h1 h2 hv, ?_, ?_, ?_⟩
  · simp [hempty]
  · simp [hempty, tasksOfRecords]
  · simp [hempty, tasksOfRecords]

/-- Claim C5 witness: a Debian 9 builder requesting version 9.9.9 (absent
from the catalog) succeeds with the warning and both tasks present. -/
theorem no_matching_artifact_nonfatal_witness :
    ∃ cOut : ModelBuilderContext,
      ContainerdBuilder.build
          { ClusterSpec := { Containerd := some { Version := some "9.9.9" } },
            Distribution := Distribution.debian9, Architecture := Architecture.amd64 } {}
        = Except.ok cOut
      ∧ BuildWarning.noContainerdPackage Distribution.debian9 Architecture.amd64 "9.9.9"
          ∈ cOut.Warnings
      ∧ ContainerdBuilder.buildSystemdService
          { ClusterSpec := { Containerd := some { Version := some "9.9.9" } },
            Distribution := Distribution.debian9, Architecture := Architecture.amd64 }
          ∈ cOut.Tasks
      ∧ Task.file (ContainerdBuilder.containerdSysconfigFile
          { ClusterSpec := { Containerd := some { Version := some "9.9.9" } },
            Distribution := Distribution.debian9, Architecture := Architecture.amd64 })
          ∈ cOut.Tasks :=
  no_matching_artifact_nonfatal _ {} "9.9.9" rfl (by decide) (by decide) rfl rfl

/-- Claim C6: for the input (Debian 9, amd64, requested version 1.2.4) the
selection returns exactly one record, with concrete version 1.2.4-1 and no
extra dependent packages. -/
theorem debian9_124_selection :
    (selectContainerd Architecture.amd64 "1.2.4" Distribution.debian9).length = 1
    ∧ (selectContainerd Architecture.amd64 "1.2.4" Distribution.debian9).map
        (fun dv => (dv.Version, dv.ExtraPackages.length)) = [("1.2.4-1", 0)] :=
  ⟨rfl, rfl⟩

/-- Claim C7: for every selected managed-package (non plain-binary) record
the builder emits a primary package task carrying exactly one dependent
package-install task per ExtraPackages entry (with that entries name,
version, source and hash), so the package-install tasks number one more than
the ExtraPackages entries, and every MarkImmutable file yields a Chattr +i
task among the emitted tasks whose dependency list is exactly the primary
package task. -/
theorem managed_package_extra_and_immutable_wiring
    (dv : packageVersion) (hpb : dv.PlainBinary = false) :
    dv.primaryTask = Task.package
        { Name := dv.Name, Version := some dv.Version, Source := some dv.Source,
          Hash := some dv.Hash, Deps := dv.ExtraPackages.map mkExtraPackageTask,
          PreventStart := some true }
    ∧ dv.primaryTask.packageInstallCount = 1 + dv.ExtraPackages.length
    ∧ (∀ f ∈ dv.MarkImmutable, Task.chattr f "+i" [dv.primaryTask] ∈ dv.tasks) := by
  refine ⟨?_, ?_, ?_⟩
  · simp [packageVersion.primaryTask, hpb, packageVersion.extraPackageTasks]
  · simp [packageVersion.primaryTask, hpb, Task.packageInstallCount,
      packageVersion.extraPackageTasks]
  · intro f hf
    simp only [packageVersion.tasks]
    exact List.mem_cons_of_mem _ (List.mem_append_left _ (List.mem_map_of_mem _ hf))

/-- A managed-package record with one extra dependent package and one
immutable-marked file, exercising the wiring of claim C7. -/
def sampleManagedRecord : packageVersion :=
  { PackageVersion := "1.2.10",
    Name := "containerd.io",
    Distros := [Distribution.centos7],
    Architectures := [Architecture.amd64],
    Version := "1.2.10",
    Source := "https://example.invalid/containerd.io.rpm",
    Hash := "0000000000000000000000000000000000000000",
    ExtraPackages := [("container-selinux",
      { Version := "2.107",
        Source := "https://example.invalid/container-selinux.rpm",
        Hash := "1111111111111111111111111111111111111111" })],
    MarkImmutable := ["/usr/bin/runc"] }

/-- Claim C7 witness: on a record with one extra package and one immutable
file the primary task counts two package installs and the Chattr task is
emitted with the primary task as dependency. -/
theorem managed_package_extra_and_immutable_wiring_witness :
    sampleManagedRecord.primaryTask.packageInstallCount
      = 1 + sampleManagedRecord.ExtraPackages.length
    ∧ Task.chattr "/usr/bin/runc" "+i" [sampleManagedRecord.primaryTask]
        ∈ sampleManagedRecord.tasks := by
  have h := managed_package_extra_and_immutable_wiring sampleManagedRecord rfl
  exact ⟨h.2.1, h.2.2 "/usr/bin/runc" (by decide)⟩

/-- Claim C8: applying the drop-in configuration file task runs its on-change
commands (among them systemctl daemon-reload) exactly when the rendered
content differs from the previously applied content, and runs none of them
when the content is unchanged. -/
theorem dropin_onchange_only_when_changed (observed : Option String) :
    ((observed = some containerdDropInFile.Contents →
        (applyFileTask containerdDropInFile observed).2 = [])
      ∧ (observed ≠ some containerdDropInFile.Contents →
        (applyFileTask containerdDropInFile observed).2
          = containerdDropInFile.OnChangeExecute))
    ∧ ["systemctl", "daemon-reload"] ∈ containerdDropInFile.OnChangeExecute := by
  refine ⟨⟨?_, ?_⟩, ?_⟩
  · intro h
    simp [applyFileTask, h]
  · intro h
    simp [applyFileTask, h]
  · simp [containerdDropInFile]

/-- Claim C8 witness: with the previously applied content observed the
commands do not run; with no previous content they all run. -/
theorem dropin_onchange_only_when_changed_witness :
    (applyFileTask containerdDropInFile (some containerdDropInFile.Contents)).2 = []
    ∧ (applyFileTask containerdDropInFile none).2 = containerdDropInFile.OnChangeExecute :=
  ⟨(dropin_onchange_only_when_changed (some containerdDropInFile.Contents)).1.1 rfl,
   (dropin_onchange_only_when_changed none).1.2 (by simp)⟩

/-- Claim C9: with the containerd section present and SkipInstall set, Build
returns success immediately and leaves the context (tasks and warnings)
unchanged; with the containerd section absent, install is not skipped. -/
theorem skipinstall_frame (b : ContainerdBuilder) (c : ModelBuilderContext) :
    (∀ cfg : ContainerdConfig, b.ClusterSpec.Containerd = some cfg →
        cfg.SkipInstall = true → b.build c = Except.ok c)
    ∧ (b.ClusterSpec.Containerd = none → b.skipInstall = false) := by
  constructor
  · intro cfg hcfg hset
    have hskip : b.skipInstall = true := by
      simp [ContainerdBuilder.skipInstall, hcfg, hset]
    simp [ContainerdBuilder.build, hskip]
  · intro h
    simp [ContainerdBuilder.skipInstall, h]

/-- Claim C9 witness: a builder with SkipInstall set returns the context with
its pre-existing task untouched, and a builder without a containerd section
does not skip. -/
theorem skipinstall_frame_witness :
    ContainerdBuilder.build
        { ClusterSpec := { Containerd := some { SkipInstall := true, Version := some "1.2.10" } },
          Distribution := Distribution.debian9, Architecture := Architecture.amd64 }
        { Tasks := [licenseFileTask], Warnings := [] }
      = Except.ok { Tasks := [licenseFileTask], Warnings := [] }
    ∧ ContainerdBuilder.skipInstall
        { ClusterSpec := {}, Distribution := Distribution.debian9,
          Architecture := Architecture.amd64 } = false :=
  ⟨(skipinstall_frame _ _).1 _ rfl rfl,
   (skipinstall_frame
      { ClusterSpec := {}, Distribution := Distribution.debian9,
        Architecture := Architecture.amd64 } {}).2 rfl⟩

/-- Claim C10: on Flatcar and ContainerOS a missing containerd version is not
an error: Build takes the drop-in path before the version lookup runs and
succeeds, while the same builder on any other distribution fails with the
configuration error. -/
theorem flatcar_containeros_missing_version_ok
    (b : ContainerdBuilder) (c : ModelBuilderContext)
    (hskip : b.skipInstall = false)
    (hd : b.Distribution = Distribution.flatcar ∨ b.Distribution = Distribution.containerOS)
    (hv : b.ClusterSpec.noContainerdVersion = true) :
    (∃ cOut : ModelBuilderContext, b.build c = Except.ok cOut)
    ∧ (∀ d2 : Distribution, d2 ≠ Distribution.flatcar → d2 ≠ Distribution.containerOS →
        ContainerdBuilder.build { b with Distribution := d2 } c
          = Except.error "error finding containerd version") := by
  constructor
  · exact ⟨_, build_dropin_path b c hskip hd⟩
  · intro d2 hx hy
    exact build_missing_version_error { b with Distribution := d2 } c hskip hx hy hv

/-- Claim C10 witness: a Flatcar builder with an empty cluster spec succeeds
while the same spec on Debian 9 fails with the configuration error. -/
theorem flatcar_containeros_missing_version_ok_witness :
    (∃ cOut : ModelBuilderContext,
      ContainerdBuilder.build
          { ClusterSpec := {}, Distribution := Distribution.flatcar,
            Architecture := Architecture.amd64 } {}
        = Except.ok cOut)
    ∧ ContainerdBuilder.build
        { ClusterSpec := {}, Distribution := Distribution.debian9,
          Architecture := Architecture.amd64 } {}
      = Except.error "error finding containerd version" := by
  have h := flatcar_containeros_missing_version_ok
    { ClusterSpec := {}, Distribution := Distribution.flatcar,
      Architecture := Architecture.amd64 } {} rfl (Or.inl rfl) rfl
  exact ⟨h.1, h.2 Distribution.debian9 (by decide) (by decide)⟩

end Kops
